import Mathlib

/-!
Shallow embedding of the View-State Coordinator of the solar-system
explorer (src/components/ui/SystemNav.tsx: the `SystemNav` component and
the `App` component that follows it in the same file).

The `App` component owns all interaction state through React `useState`
hooks; each handler is a pure state transformer here.  Asynchronous
pieces (the 1.2 s activation timer, the platform fullscreenchange event,
viewport resize) are modelled as separate transformers invoked by the
environment, matching the single-threaded event-loop semantics.
-/

namespace TechnoZones

/-- Modelled from the spec: the `City` record type (`src/types/index.ts`
is not in the sources).  A Location has a name and a positional
descriptor usable by a renderer. -/
structure City where
  name : String
  lat : Int
  lng : Int
deriving DecidableEq, Repr

/-- Modelled from the spec: the `CelestialBodyConfig` record type
(`src/types/index.ts` is not in the sources).  A Body has a stable
identifier, a display name and its surface locations (`data`). -/
structure CelestialBodyConfig where
  id : String
  name : String
  data : List City
deriving DecidableEq, Repr

/-- `type ViewMode = 'ORBIT' | 'SYSTEM'` from the App component. -/
inductive ViewMode where
  | ORBIT
  | SYSTEM
deriving DecidableEq, Repr

/-- The aggregate of all `useState` hooks owned by the App component
(the InteractionState of the spec).  `isHovering` is presentation-only
state also owned there; it is carried along for faithfulness. -/
structure AppState where
  activeBodyId : String
  selectedItem : Option City
  viewMode : ViewMode
  zoomLevel : Int
  isHovering : Bool
  isActivated : Bool
  isTransitioning : Bool
  isMobile : Bool
  mobileInfoVisible : Bool
  mobileListVisible : Bool
deriving DecidableEq, Repr

/-- The `useState` initial values of the App component:
`'earth'`, `null`, `'ORBIT'`, `30`, `false`, `false`, `false`, `false`,
`false`, `false`. -/
def initialState : AppState :=
  { activeBodyId := "earth"
    selectedItem := none
    viewMode := ViewMode.ORBIT
    zoomLevel := 30
    isHovering := false
    isActivated := false
    isTransitioning := false
    isMobile := false
    mobileInfoVisible := false
    mobileListVisible := false }

/-- `targetLinkIds` from the SystemNav component. -/
def targetLinkIds : List String :=
  ["earth", "moon", "mars", "belt", "io", "europa", "ganymede", "callisto"]

/-- `visibleBodies = bodies.filter(b => targetLinkIds.includes(b.id))`
from the SystemNav component. -/
def visibleBodies (bodies : List CelestialBodyConfig) : List CelestialBodyConfig :=
  bodies.filter (fun b => targetLinkIds.contains b.id)

/-- `detailedBodies` from `handleMapSelection` in the App component. -/
def detailedBodies : List String :=
  ["earth", "moon", "mars", "belt", "io", "europa", "ganymede", "callisto"]

/-- `handleZoomChange`: `setZoomLevel(val)` then forwards `val` to the
renderer active under the current view mode.  Only the state mutation is
embedded; note the value is stored as given, with no clamping. -/
def handleZoomChange (val : Int) (s : AppState) : AppState :=
  { s with zoomLevel := val }

/-- `setZoomLevel` used directly as the map renderer's
`onZoomAutoChange` callback. -/
def setZoomLevel (val : Int) (s : AppState) : AppState :=
  { s with zoomLevel := val }

/-- `setViewMode` passed directly as `onViewModeChange` to SystemNav. -/
def setViewMode (m : ViewMode) (s : AppState) : AppState :=
  { s with viewMode := m }

/-- `setIsHovering` used as the renderers' `onHoverChange` callback. -/
def setIsHovering (b : Bool) (s : AppState) : AppState :=
  { s with isHovering := b }

/-- `handleBodySelection`: `setActiveBodyId(id); setSelectedItem(null);
if (isMobile) setMobileListVisible(false);`. -/
def handleBodySelection (id : String) (s : AppState) : AppState :=
  { s with
    activeBodyId := id
    selectedItem := none
    mobileListVisible := if s.isMobile then false else s.mobileListVisible }

/-- `handleMapSelection`: `setActiveBodyId(id); setSelectedItem(null);`
then `if (viewMode === 'SYSTEM' && detailedBodies.includes(id))
setViewMode('ORBIT');`. -/
def handleMapSelection (id : String) (s : AppState) : AppState :=
  if s.viewMode = ViewMode.SYSTEM ∧ id ∈ detailedBodies then
    { s with activeBodyId := id, selectedItem := none, viewMode := ViewMode.ORBIT }
  else
    { s with activeBodyId := id, selectedItem := none }

/-- `handleCitySelect`: `setSelectedItem(city); if (isMobile) {
setMobileInfoVisible(false); setMobileListVisible(false); }`. -/
def handleCitySelect (city : City) (s : AppState) : AppState :=
  { s with
    selectedItem := some city
    mobileInfoVisible := if s.isMobile then false else s.mobileInfoVisible
    mobileListVisible := if s.isMobile then false else s.mobileListVisible }

/-- `handleActivate`, synchronous part: `setIsTransitioning(true)` and a
1.2 s timer is scheduled (its callback body is `activateTimerFire`). -/
def handleActivate (s : AppState) : AppState :=
  { s with isTransitioning := true }

/-- The body of the `setTimeout` callback scheduled by `handleActivate`:
`setIsActivated(true); setIsTransitioning(false);` then a best-effort
fullscreen request.  The callback reads no current state: it applies
these writes unconditionally whenever the timer fires. -/
def activateTimerFire (s : AppState) : AppState :=
  { s with isActivated := true, isTransitioning := false }

/-- `handleDeactivate`: requests fullscreen exit, then
`setIsActivated(false); setIsTransitioning(false); setSelectedItem(null);
setZoomLevel(30);`. -/
def handleDeactivate (s : AppState) : AppState :=
  { s with
    isActivated := false
    isTransitioning := false
    selectedItem := none
    zoomLevel := 30 }

/-- `onFsChange` from the fullscreenchange effect:
`if (!document.fullscreenElement && isActivated && isMobile)
setIsActivated(false);`.  `fullscreenPresent` models
`document.fullscreenElement` being non-null. -/
def onFsChange (fullscreenPresent : Bool) (s : AppState) : AppState :=
  if fullscreenPresent = false ∧ s.isActivated = true ∧ s.isMobile = true then
    { s with isActivated := false }
  else s

/-- `checkDevice` from the resize effect:
`setIsMobile(isSmallScreen || hasTouch);
if (!isSmallScreen && !hasTouch) setIsActivated(true);` where
`isSmallScreen = window.innerWidth < 1024` and `hasTouch` is the touch
capability signal — both modelled as environment inputs. -/
def checkDevice (isSmallScreen hasTouch : Bool) (s : AppState) : AppState :=
  if isSmallScreen = false ∧ hasTouch = false then
    { s with isMobile := isSmallScreen || hasTouch, isActivated := true }
  else
    { s with isMobile := isSmallScreen || hasTouch }

/-- The inline `onToggleMobileInfo` callback:
`setMobileInfoVisible(!mobileInfoVisible); setMobileListVisible(false);`. -/
def toggleMobileInfo (s : AppState) : AppState :=
  { s with mobileInfoVisible := !s.mobileInfoVisible, mobileListVisible := false }

/-- The inline `onToggleMobileList` callback:
`setMobileListVisible(!mobileListVisible); setMobileInfoVisible(false);`. -/
def toggleMobileList (s : AppState) : AppState :=
  { s with mobileListVisible := !s.mobileListVisible, mobileInfoVisible := false }

/-- The DetailPanel `onClose` callback: `setSelectedItem(null)`. -/
def clearSelectedItem (s : AppState) : AppState :=
  { s with selectedItem := none }

/-- `activeConfig = SOLAR_SYSTEM_DATA.find(b => b.id === activeBodyId)
|| SOLAR_SYSTEM_DATA[0]`, parametrised over the catalog. -/
def activeConfig (catalog : List CelestialBodyConfig) (s : AppState) :
    Option CelestialBodyConfig :=
  match catalog.find? (fun b => b.id == s.activeBodyId) with
  | some b => some b
  | none => catalog.head?

/-- A location belongs to the body identified by `bodyId` in `catalog`. -/
def belongs (catalog : List CelestialBodyConfig) (c : City) (bodyId : String) : Bool :=
  catalog.any (fun b => b.id == bodyId && b.data.contains c)

/-- One event-loop step of the App: every state transformer above, with
its external inputs chosen by the environment. -/
inductive Step : AppState → AppState → Prop where
  | zoom (s : AppState) (v : Int) : Step s (handleZoomChange v s)
  | zoomAuto (s : AppState) (v : Int) : Step s (setZoomLevel v s)
  | mode (s : AppState) (m : ViewMode) : Step s (setViewMode m s)
  | hover (s : AppState) (b : Bool) : Step s (setIsHovering b s)
  | body (s : AppState) (id : String) : Step s (handleBodySelection id s)
  | map (s : AppState) (id : String) : Step s (handleMapSelection id s)
  | city (s : AppState) (c : City) : Step s (handleCitySelect c s)
  | activate (s : AppState) : Step s (handleActivate s)
  | timer (s : AppState) : Step s (activateTimerFire s)
  | deactivate (s : AppState) : Step s (handleDeactivate s)
  | fsChange (s : AppState) (fp : Bool) : Step s (onFsChange fp s)
  | device (s : AppState) (small touch : Bool) : Step s (checkDevice small touch s)
  | tInfo (s : AppState) : Step s (toggleMobileInfo s)
  | tList (s : AppState) : Step s (toggleMobileList s)
  | clearSel (s : AppState) : Step s (clearSelectedItem s)

/-- States reachable from the startup state via event-loop steps. -/
inductive Reachable : AppState → Prop where
  | init : Reachable initialState
  | step {s t : AppState} : Reachable s → Step s t → Reachable t

/-! Concrete inputs used in scenarios and counterexamples. -/

/-- A sample surface location of Mars. -/
def marsCity : City := { name := "OLYMPUS MONS", lat := 18, lng := -134 }

/-- A sample surface location of Earth. -/
def earthCity : City := { name := "GENEVA", lat := 46, lng := 6 }

/-- Modelled from the spec: a representative fragment of the external
catalog `SOLAR_SYSTEM_DATA` (`src/data/constants.ts` is not in the
sources) — an ordered sequence of Body records with stable identifiers
and contained Location records. -/
def exCatalog : List CelestialBodyConfig :=
  [ { id := "earth", name := "earth", data := [earthCity] },
    { id := "mars", name := "mars", data := [marsCity] } ]

/-- The spec scenario's start state `{viewMode: SYSTEM, activeBodyId: "sol"}`. -/
def scenarioStart : AppState :=
  { initialState with viewMode := ViewMode.SYSTEM, activeBodyId := "sol" }

/-! ## C6 -/

/-- Claim C6: if the current viewMode is SYSTEM and `selectFromMap(id)`
(`handleMapSelection`) is called with an id in the detailed-bodies
allow-list, then in the same logical update `activeBodyId` becomes `id`,
`selection` becomes null, and `viewMode` becomes ORBIT. -/
theorem selectFromMap_drills_down (s : AppState) (id : String)
    (hv : s.viewMode = ViewMode.SYSTEM) (hd : id ∈ detailedBodies) :
    (handleMapSelection id s).activeBodyId = id ∧
    (handleMapSelection id s).selectedItem = none ∧
    (handleMapSelection id s).viewMode = ViewMode.ORBIT := by
  unfold handleMapSelection
  rw [if_pos ⟨hv, hd⟩]
  exact ⟨rfl, rfl, rfl⟩

/-- Claim C6, witness: from `{viewMode: SYSTEM, activeBodyId: "sol"}`,
`selectFromMap("mars")` yields
`{viewMode: ORBIT, activeBodyId: "mars", selection: null}`. -/
theorem selectFromMap_drills_down_witness :
    (handleMapSelection "mars" scenarioStart).activeBodyId = "mars" ∧
    (handleMapSelection "mars" scenarioStart).selectedItem = none ∧
    (handleMapSelection "mars" scenarioStart).viewMode = ViewMode.ORBIT :=
  selectFromMap_drills_down scenarioStart "mars" rfl (by decide)

/-! ## C7 -/

/-- Every event-loop step preserves mutual exclusion of the two mobile
panels: any operation that sets one visible forces the other to false,
and no operation sets both. -/
theorem step_preserves_panels {s t : AppState} (st : Step s t)
    (h : (s.mobileInfoVisible && s.mobileListVisible) = false) :
    (t.mobileInfoVisible && t.mobileListVisible) = false := by
  cases st with
  | zoom v => exact h
  | zoomAuto v => exact h
  | mode m => exact h
  | hover b => exact h
  | body id =>
      cases hm : s.isMobile <;>
        simp_all [handleBodySelection]
  | map id =>
      unfold handleMapSelection
      split <;> exact h
  | city c =>
      cases hm : s.isMobile <;>
        simp_all [handleCitySelect]
  | activate => exact h
  | timer => exact h
  | deactivate => exact h
  | fsChange fp =>
      unfold onFsChange
      split <;> exact h
  | device small touch =>
      unfold checkDevice
      split <;> exact h
  | tInfo => simp [toggleMobileInfo]
  | tList => simp [toggleMobileList]
  | clearSel => exact h

/-- Claim C7: for every reachable InteractionState,
`mobilePanelVisibility.info` and `mobilePanelVisibility.list` are never
both true. -/
theorem mobile_panels_mutually_exclusive (s : AppState) (h : Reachable s) :
    ¬(s.mobileInfoVisible = true ∧ s.mobileListVisible = true) := by
  have key : (s.mobileInfoVisible && s.mobileListVisible) = false := by
    induction h with
    | init => rfl
    | step _ st ih => exact step_preserves_panels st ih
  intro hc
  rw [hc.1, hc.2] at key
  exact Bool.noConfusion key

/-- Claim C7, witness: the invariant at the startup state. -/
theorem mobile_panels_mutually_exclusive_witness :
    ¬(initialState.mobileInfoVisible = true ∧ initialState.mobileListVisible = true) :=
  mobile_panels_mutually_exclusive initialState Reachable.init

/-! ## C9 -/

/-- Claim C9: if the device classifier reclassifies the device from
`touch` to `desktop` (resize signals: not small screen, no touch) while
activation is dormant, the view becomes activated without `activate()`
being called; reclassifying `desktop` to `touch` leaves the activation
state unchanged (no auto-deactivate). -/
theorem reclassify_desktop_auto_activates :
    (∀ s : AppState, s.isMobile = true → s.isActivated = false →
      (checkDevice false false s).isMobile = false ∧
      (checkDevice false false s).isActivated = true) ∧
    (∀ (s : AppState) (small touch : Bool), s.isMobile = false →
      (small || touch) = true →
      (checkDevice small touch s).isMobile = true ∧
      (checkDevice small touch s).isActivated = s.isActivated) := by
  constructor
  · intro s _ _
    exact ⟨rfl, rfl⟩
  · intro s small touch _ ht
    unfold checkDevice
    cases small with
    | false =>
        cases touch with
        | false => exact absurd ht (by decide)
        | true => exact ⟨by simp, rfl⟩
    | true =>
        cases touch <;> exact ⟨by simp, rfl⟩

/-- Claim C9, witness: a dormant touch-classified state auto-activates on
a desktop reclassification, and the startup desktop state keeps its
activation flag when reclassified to touch. -/
theorem reclassify_desktop_auto_activates_witness :
    ((checkDevice false false { initialState with isMobile := true }).isMobile = false ∧
     (checkDevice false false { initialState with isMobile := true }).isActivated = true) ∧
    ((checkDevice true false initialState).isMobile = true ∧
     (checkDevice true false initialState).isActivated = initialState.isActivated) :=
  ⟨reclassify_desktop_auto_activates.1 { initialState with isMobile := true } rfl rfl,
   reclassify_desktop_auto_activates.2 initialState true false rfl rfl⟩

/-! ## C10 -/

/-- Claim C10: the navigation rail offers exactly those catalog bodies
whose identifier is in the fixed list
`['earth','moon','mars','belt','io','europa','ganymede','callisto']`,
and that list is element-for-element equal to the detailed-bodies
allow-list used by the map-selection handler. -/
theorem nav_rail_matches_detailed_bodies :
    targetLinkIds =
      ["earth", "moon", "mars", "belt", "io", "europa", "ganymede", "callisto"] ∧
    targetLinkIds = detailedBodies ∧
    ∀ (bodies : List CelestialBodyConfig) (b : CelestialBodyConfig),
      b ∈ visibleBodies bodies ↔ b ∈ bodies ∧ b.id ∈ targetLinkIds := by
  refine ⟨rfl, rfl, ?_⟩
  intro bodies b
  simp [visibleBodies, List.mem_filter]

/-! ## C1 -/

/-- Claim C1, counterexample: `selectLocation` (`handleCitySelect`)
installs a Mars location while `activeBodyId` is `"earth"`, producing a
reachable state whose selection does not belong to the active body; a
subsequent view-mode change leaves the selection in place instead of
clearing it. -/
theorem selection_invariant_fails :
    Reachable (handleCitySelect marsCity initialState) ∧
    (handleCitySelect marsCity initialState).activeBodyId = "earth" ∧
    (handleCitySelect marsCity initialState).selectedItem = some marsCity ∧
    belongs exCatalog marsCity "earth" = false ∧
    (setViewMode ViewMode.SYSTEM (handleCitySelect marsCity initialState)).selectedItem
      = some marsCity := by
  refine ⟨Reachable.step Reachable.init (Step.city initialState marsCity),
    rfl, rfl, ?_, rfl⟩
  decide

/-- Claim C1, amended: selection is cleared whenever `activeBodyId`
changes (`selectBody`, `selectFromMap`) and on `deactivate`, but a
view-mode change leaves the selection unchanged, and `selectLocation`
stores the given location unconditionally, with no body-membership
check. -/
theorem selection_clearing_amended :
    ∀ (id : String) (m : ViewMode) (c : City) (s : AppState),
      (handleBodySelection id s).selectedItem = none ∧
      (handleMapSelection id s).selectedItem = none ∧
      (handleDeactivate s).selectedItem = none ∧
      (setViewMode m s).selectedItem = s.selectedItem ∧
      (handleCitySelect c s).selectedItem = some c := by
  intro id m c s
  refine ⟨rfl, ?_, rfl, rfl, rfl⟩
  unfold handleMapSelection
  split <;> rfl

/-! ## C2 -/

/-- Claim C2: the code lacks the state guard the claim describes.  After
`activate()` from the startup state, `deactivate()` during the
transition resets to dormant, but when the 1.2 s timer then fires its
callback unconditionally applies `activated`, so the final activation
state is `activated`, not `dormant`. -/
theorem stale_timer_overrides_deactivate :
    (handleDeactivate (handleActivate initialState)).isActivated = false ∧
    (handleDeactivate (handleActivate initialState)).isTransitioning = false ∧
    (activateTimerFire (handleDeactivate (handleActivate initialState))).isActivated
      = true :=
  ⟨rfl, rfl, rfl⟩

/-! ## C3 -/

/-- Claim C3, counterexample: `setZoom` (`handleZoomChange`) stores the
value as given — `setZoom(150)` yields `zoomLevel = 150`, not `100`, and
`setZoom(-10)` yields `-10`, not `0`. -/
theorem setZoom_not_clamped :
    (handleZoomChange 150 initialState).zoomLevel = 150 ∧
    (handleZoomChange 150 initialState).zoomLevel ≠ 100 ∧
    (handleZoomChange (-10) initialState).zoomLevel = -10 ∧
    (handleZoomChange (-10) initialState).zoomLevel ≠ 0 := by
  refine ⟨rfl, ?_, rfl, ?_⟩ <;> decide

/-- Claim C3, amended: `setZoom` stores the given value without
clamping; `zoomLevel` equals the last value passed, so it stays in
[0,100] only when inputs are (the range slider supplying them is
constrained to 0..100). -/
theorem setZoom_stores_unclamped :
    ∀ (v : Int) (s : AppState), (handleZoomChange v s).zoomLevel = v :=
  fun _ _ => rfl

/-! ## C4 -/

/-- Claim C4, counterexample: after `selectBody("earth")`, calling
`selectLocation` with a Mars location does not fail — it installs the
mismatched location as the selection (no `LocationMismatch` error path
exists), although it indeed leaves `activeBodyId` untouched. -/
theorem selectLocation_no_mismatch_check :
    (handleBodySelection "earth" initialState).selectedItem = none ∧
    belongs exCatalog marsCity "earth" = false ∧
    (handleCitySelect marsCity (handleBodySelection "earth" initialState)).selectedItem
      = some marsCity ∧
    (handleCitySelect marsCity (handleBodySelection "earth" initialState)).activeBodyId
      = "earth" := by
  refine ⟨rfl, ?_, rfl, rfl⟩
  decide

/-- Claim C4, amended: `selectLocation` performs no body-membership
validation: it unconditionally sets the selection to the given location,
never re-targets `activeBodyId` or the view mode, and on touch devices
closes both mobile panels. -/
theorem selectLocation_unconditional :
    ∀ (c : City) (s : AppState),
      (handleCitySelect c s).selectedItem = some c ∧
      (handleCitySelect c s).activeBodyId = s.activeBodyId ∧
      (handleCitySelect c s).viewMode = s.viewMode ∧
      (handleCitySelect c s).mobileInfoVisible =
        (if s.isMobile then false else s.mobileInfoVisible) ∧
      (handleCitySelect c s).mobileListVisible =
        (if s.isMobile then false else s.mobileListVisible) :=
  fun _ _ => ⟨rfl, rfl, rfl, rfl, rfl⟩

/-! ## C5 -/

/-- Claim C5, counterexample: `"pluto"` has no matching Body in the
catalog, yet `selectBody("pluto")` is not rejected — it changes the
state, setting `activeBodyId := "pluto"` (no `UnknownBody` error path
exists). -/
theorem selectBody_no_unknown_check :
    exCatalog.find? (fun b => b.id == "pluto") = none ∧
    (handleBodySelection "pluto" initialState).activeBodyId = "pluto" ∧
    handleBodySelection "pluto" initialState ≠ initialState := by
  refine ⟨?_, rfl, ?_⟩ <;> decide

/-- Claim C5, amended: `selectBody` stores any identifier without
catalog validation, clears the selection, and on touch devices closes
the mobile list panel; an unresolvable identifier is tolerated at render
time by `activeConfig` falling back to the first catalog body. -/
theorem selectBody_unvalidated :
    (∀ (id : String) (s : AppState),
      (handleBodySelection id s).activeBodyId = id ∧
      (handleBodySelection id s).selectedItem = none ∧
      (handleBodySelection id s).mobileListVisible =
        (if s.isMobile then false else s.mobileListVisible)) ∧
    activeConfig exCatalog (handleBodySelection "pluto" initialState)
      = exCatalog.head? := by
  refine ⟨fun _ _ => ⟨rfl, rfl, rfl⟩, ?_⟩
  decide

/-! ## C8 -/

/-- A touch-classified, activated state with a live selection and a
non-default zoom, as left by user interaction. -/
def fsState : AppState :=
  { initialState with
    isMobile := true
    isActivated := true
    selectedItem := some marsCity
    zoomLevel := 70 }

/-- Claim C8, counterexample: a platform fullscreen exit on a
touch-classified, activated state only resets the activation flag — the
selection is not cleared and `zoomLevel` is not reset to the startup
default, so the handler is not a `deactivate()`-equivalent reset. -/
theorem fs_exit_no_full_reset :
    (onFsChange false fsState).isActivated = false ∧
    (onFsChange false fsState).selectedItem = some marsCity ∧
    (onFsChange false fsState).zoomLevel = 70 ∧
    (onFsChange false fsState).selectedItem ≠ none ∧
    (onFsChange false fsState).zoomLevel ≠ initialState.zoomLevel := by
  refine ⟨?_, ?_, ?_, ?_, ?_⟩ <;> decide

/-- Claim C8, amended: on a touch-classified device, a platform
fullscreen exit while activated sets the activation state to dormant and
changes nothing else (selection and zoom are left as they were); on a
desktop-classified device the event leaves the whole state unchanged. -/
theorem fs_exit_amended :
    (∀ s : AppState, s.isMobile = true → s.isActivated = true →
      onFsChange false s = { s with isActivated := false }) ∧
    (∀ (s : AppState) (fp : Bool), s.isMobile = false → onFsChange fp s = s) := by
  constructor
  · intro s hm ha
    unfold onFsChange
    rw [if_pos ⟨rfl, ha, hm⟩]
  · intro s fp hm
    unfold onFsChange
    rw [if_neg]
    intro hc
    rw [hm] at hc
    exact Bool.noConfusion hc.2.2

/-- Claim C8, witness: the two branches of the amended statement at
concrete states. -/
theorem fs_exit_amended_witness :
    onFsChange false fsState = { fsState with isActivated := false } ∧
    onFsChange false initialState = initialState :=
  ⟨fs_exit_amended.1 fsState rfl rfl, fs_exit_amended.2 initialState false rfl⟩

end TechnoZones
